import Mathlib

/-!
Verification of the PCA backend's authorization model and resource-inventory
caching protocol, as a shallow embedding of the Python source
(`app/auth/rbac.py`, `app/api/v1/permissions.py`, `app/api/v1/clients.py`,
`app/api/v1/users.py`, `app/api/v1/metrics.py`) into Lean.

Conventions of the embedding:
* SQLAlchemy rows become structures; association tables are resolved to lists
  of permission-name strings (permission names are unique, so ORM object
  membership coincides with name membership).
* An HTTP handler becomes a function `DB → args → DB × Except HErr Resp`;
  raising `HTTPException` before any write returns the unchanged `DB` together
  with `.error`.  `HTTPException.detail` strings are represented structurally
  by the `Detail` inductive (one constructor per source message, f-string data
  carried as fields).
* `datetime.utcnow()` becomes an explicit `now : Int` parameter (seconds);
  timestamp subtraction is integer subtraction, as in the source.
* The cloud-provider SDK calls are an oracle: per-service sub-fetches are
  given by an environment value, each either a record list or a failure.
-/

namespace Pca

/-- `models.Role`: a role row, with the `role_permissions` association
resolved to the list of permission names of the role. -/
structure Role where
  id : Nat
  name : String
  permissions : List String
deriving Repr, DecidableEq

/-- `models.User`: a user row.  `role_id` is the nullable role FK,
`assigned_client_id` is the legacy single-client column, and `user_perms`
is the `user_permissions` override association resolved to permission names. -/
structure User where
  id : Nat
  tenant_id : Nat
  username : String
  role_id : Option Nat
  assigned_client_id : Option Nat
  user_perms : List String
deriving Repr, DecidableEq

/-- `models.Tenant` (a client): `metadata_json` reduced to its `provider`
field; `none` models both absent metadata and an unset provider key. -/
structure Tenant where
  id : Nat
  name : String
  provider : Option String
deriving Repr, DecidableEq

/-- `models.UserClientPermission`: one user-client assignment row with an
access level (`viewer` / `editor` / `approver`). -/
structure UserClientPermission where
  user_id : Nat
  client_id : Nat
  permission : String
deriving Repr, DecidableEq

/-- Resource data of one inventory category: resource type name to records.
Records are opaque strings; only their identity and count matter here. -/
abbrev CategoryData := List (String × List String)

/-- The nested provider-inventory payload: category name to category data,
plus the top-level `error` key that the fetchers add on failure (it is a
string in the source dict, never a category, so it is kept apart). -/
structure Inventory where
  categories : List (String × CategoryData)
  error : Option String
deriving Repr, DecidableEq

/-- `models.CloudMetricsCache`: one cached inventory snapshot for a
(tenant, provider) key; `metrics_data` is split into its `resources` and
`summary` components; `fetched_at` in seconds. -/
structure CloudMetricsCache where
  tenant_id : Nat
  provider : String
  resources : Inventory
  summary : List (String × Nat)
  fetched_at : Int
deriving Repr, DecidableEq

/-- The relational store: `users`, `roles`, `permissions` (the Permission
table reduced to its unique names), `tenants`, the user-client assignment
table, and the inventory-snapshot cache table. -/
structure DB where
  users : List User
  roles : List Role
  permissions : List String
  tenants : List Tenant
  userClientPerms : List UserClientPermission
  cache : List CloudMetricsCache
deriving Repr, DecidableEq

/-- Structural form of the `HTTPException.detail` strings raised by the
handlers; f-string interpolated data is carried as constructor fields.
`unauthorizedClients ids` models the message
`You can only assign clients from your own assigned list. Unauthorized
client IDs: {unauthorized_clients}`. -/
inductive Detail where
  | userNotFound
  | currentUserNotFound
  | clientNotFound
  | roleNotFound (role_name : String)
  | permissionDenied (permission : String)
  | cannotModifySuperadminRole
  | adminsOnlyAssignToMembers
  | noAssignedClientsToShare
  | unauthorizedClients (ids : List Nat)
deriving Repr, DecidableEq

/-- An `HTTPException`: status code plus structured detail. -/
structure HErr where
  status : Nat
  detail : Detail
deriving Repr, DecidableEq

/-- Python `set(...)` built from a list: duplicate elements collapse; only
membership is meaningful (set iteration order is arbitrary in Python, so any
canonical order is a faithful model). -/
def pySet {α : Type} [BEq α] : List α → List α
  | [] => []
  | x :: xs => if (pySet xs).contains x then pySet xs else x :: pySet xs

/-- `select(User).where(User.id == user_id)` + `scalar_one_or_none()`. -/
def lookupUser (db : DB) (uid : Nat) : Option User :=
  db.users.find? (fun u => u.id == uid)

/-- Role lookup by primary key (resolution of the `role_id` FK). -/
def lookupRoleById (db : DB) (rid : Nat) : Option Role :=
  db.roles.find? (fun r => r.id == rid)

/-- `select(Role).where(Role.name == role_name)` + `scalar_one_or_none()`. -/
def lookupRoleByName (db : DB) (role_name : String) : Option Role :=
  db.roles.find? (fun r => r.name == role_name)

/-- `user.role_obj`: the eagerly loaded role of a user (None when the FK is
null or dangling). -/
def roleObj (db : DB) (u : User) : Option Role :=
  u.role_id.bind (lookupRoleById db)

/-- `user.role_obj.name if user.role_obj else "member"` — the role-name
defaulting used throughout `users.py`. -/
def roleNameOf (db : DB) (u : User) : String :=
  ((roleObj db u).map Role.name).getD "member"

/-- `rbac.get_user_permissions`: the permissions of the user's role — and of
the role only; the body never loads `User.user_permissions`.  Returns the
empty set when the user or their role is missing. -/
def get_user_permissions (db : DB) (user_id : Nat) : List String :=
  match lookupUser db user_id with
  | none => []
  | some u =>
    match roleObj db u with
    | none => []
    | some r => r.permissions

/-- `rbac.has_permission`: the request-time permission check used by every
`require_permission` route dependency.  `user_id` is `user.get("user_id")`
from the JWT dict, so it may be absent (falsy), which yields `false`. -/
def has_permission (db : DB) (user_id : Option Nat) (permission : String) : Bool :=
  match user_id with
  | none => false
  | some uid => (get_user_permissions db uid).contains permission

/-- Response of `GET /permissions/user/{user_id}/effective`. -/
structure EffectivePermissionsResp where
  user_id : Nat
  role : String
  role_permissions : List String
  user_specific_permissions : List String
  effective_permissions : List String
deriving Repr, DecidableEq

/-- `permissions.get_user_effective_permissions`: role permissions plus the
user-specific overrides; the source combines them with
`list(set(role_permissions + user_specific))` (then sorts for display) —
`pySet` keeps the same membership. -/
def get_user_effective_permissions (db : DB) (user_id : Nat) :
    Except HErr EffectivePermissionsResp :=
  match lookupUser db user_id with
  | none => .error ⟨404, .userNotFound⟩
  | some u =>
    let role_permissions :=
      match roleObj db u with
      | some r => r.permissions
      | none => []
    let user_specific := u.user_perms
    .ok { user_id := u.id
          role := roleNameOf db u
          role_permissions := role_permissions
          user_specific_permissions := user_specific
          effective_permissions := pySet (role_permissions ++ user_specific) }

/-- `clients.list_clients`: superadmins see every tenant; everyone else sees
the tenants joined through their `UserClientPermission` rows (the legacy
`assigned_client_id` column is not consulted). -/
def list_clients (db : DB) (uid : Nat) : Except HErr (List Tenant) :=
  match lookupUser db uid with
  | none => .error ⟨404, .userNotFound⟩
  | some u =>
    if (roleObj db u).any (fun r => r.name == "superadmin") then
      .ok db.tenants
    else
      .ok (db.tenants.filter (fun t =>
        db.userClientPerms.any (fun p => p.user_id == uid && p.client_id == t.id)))

/-- Response of `POST /permissions/role/{role_name}/grant`. -/
structure RoleGrantResp where
  role : String
  granted : List String
  already_has : List String
  not_found : List String
deriving Repr, DecidableEq

/-- Response of `POST /permissions/role/{role_name}/revoke`. -/
structure RoleRevokeResp where
  role : String
  revoked : List String
  did_not_have : List String
  not_found : List String
deriving Repr, DecidableEq

/-- The `for perm_name in permission_names` loop of
`grant_permissions_to_role`: classifies each name as not-found (no such
Permission row), already-held, or granted (appended to the role's set).
Returns (final role permissions, granted, already_has, not_found). -/
def grantLoop (dbPerms : List String) (names : List String) (rolePerms : List String) :
    List String × List String × List String × List String :=
  match names with
  | [] => (rolePerms, [], [], [])
  | n :: rest =>
    if ! dbPerms.contains n then
      let (rp, g, a, nf) := grantLoop dbPerms rest rolePerms
      (rp, g, a, n :: nf)
    else if rolePerms.contains n then
      let (rp, g, a, nf) := grantLoop dbPerms rest rolePerms
      (rp, g, n :: a, nf)
    else
      let (rp, g, a, nf) := grantLoop dbPerms rest (rolePerms ++ [n])
      (rp, n :: g, a, nf)

/-- The revocation loop of `revoke_permissions_from_role`: not-found,
did-not-have, or revoked (removed from the role's set). -/
def revokeLoop (dbPerms : List String) (names : List String) (rolePerms : List String) :
    List String × List String × List String × List String :=
  match names with
  | [] => (rolePerms, [], [], [])
  | n :: rest =>
    if ! dbPerms.contains n then
      let (rp, r, d, nf) := revokeLoop dbPerms rest rolePerms
      (rp, r, d, n :: nf)
    else if ! rolePerms.contains n then
      let (rp, r, d, nf) := revokeLoop dbPerms rest rolePerms
      (rp, r, n :: d, nf)
    else
      let (rp, r, d, nf) := revokeLoop dbPerms rest (rolePerms.erase n)
      (rp, n :: r, d, nf)

/-- Commit of a mutated role row: replace the row with the same id. -/
def updateRole (db : DB) (r : Role) : DB :=
  { db with roles := db.roles.map (fun x => if x.id == r.id then r else x) }

/-- `permissions.grant_permissions_to_role`: rejects the `superadmin` role
with 403 before touching the store, 404s on an unknown role, otherwise runs
the grant loop and commits the updated role. -/
def grant_permissions_to_role (db : DB) (role_name : String) (perm_names : List String) :
    DB × Except HErr RoleGrantResp :=
  if role_name == "superadmin" then
    (db, .error ⟨403, .cannotModifySuperadminRole⟩)
  else
    match lookupRoleByName db role_name with
    | none => (db, .error ⟨404, .roleNotFound role_name⟩)
    | some role =>
      let (rp, g, a, nf) := grantLoop db.permissions perm_names role.permissions
      (updateRole db { role with permissions := rp },
       .ok { role := role_name, granted := g, already_has := a, not_found := nf })

/-- `permissions.revoke_permissions_from_role`: same shape as the grant
handler, with the revocation loop. -/
def revoke_permissions_from_role (db : DB) (role_name : String) (perm_names : List String) :
    DB × Except HErr RoleRevokeResp :=
  if role_name == "superadmin" then
    (db, .error ⟨403, .cannotModifySuperadminRole⟩)
  else
    match lookupRoleByName db role_name with
    | none => (db, .error ⟨404, .roleNotFound role_name⟩)
    | some role =>
      let (rp, r, d, nf) := revokeLoop db.permissions perm_names role.permissions
      (updateRole db { role with permissions := rp },
       .ok { role := role_name, revoked := r, did_not_have := d, not_found := nf })

/-- The permission set a role name currently grants (empty if no such role):
used to state that a rejected call leaves the role's permissions intact. -/
def rolePermissionSet (db : DB) (role_name : String) : List String :=
  ((lookupRoleByName db role_name).map Role.permissions).getD []

/-- One entry of the `POST /users/{user_id}/client-permissions` payload. -/
structure ClientPermissionCreate where
  client_id : Nat
  permission : String
deriving Repr, DecidableEq

/-- `current_user_obj.client_permissions` resolved to client ids: the ids of
the actor's own `UserClientPermission` rows. -/
def actorAssignedClientIds (db : DB) (uid : Nat) : List Nat :=
  (db.userClientPerms.filter (fun p => p.user_id == uid)).map (fun p => p.client_id)

/-- Response of `POST /users/{user_id}/client-permissions`. -/
structure UpdateClientPermsResp where
  permissions : List UserClientPermission
deriving Repr, DecidableEq

/-- The replace step of `update_user_client_permissions`: delete every
existing assignment row of the target user, then insert one row per payload
entry, and return the target's rows as the response. -/
def replaceClientPerms (db : DB) (user_id : Nat) (payload : List ClientPermissionCreate) :
    DB × Except HErr UpdateClientPermsResp :=
  let kept := db.userClientPerms.filter (fun p => ! (p.user_id == user_id))
  let added := payload.map (fun p => UserClientPermission.mk user_id p.client_id p.permission)
  ({ db with userClientPerms := kept ++ added }, .ok ⟨added⟩)

/-- `users.update_user_client_permissions`: the client-assignment handler.
Superadmins replace freely; any other actor must target a non-admin user,
must own at least one assignment, and every requested client must be in the
actor's own assignment rows — otherwise 403 naming the unauthorized ids. -/
def update_user_client_permissions (db : DB) (actor_id : Nat) (user_id : Nat)
    (payload : List ClientPermissionCreate) : DB × Except HErr UpdateClientPermsResp :=
  match lookupUser db actor_id with
  | none => (db, .error ⟨404, .currentUserNotFound⟩)
  | some actor =>
    let actor_role := roleNameOf db actor
    match lookupUser db user_id with
    | none => (db, .error ⟨404, .userNotFound⟩)
    | some target =>
      let target_role := roleNameOf db target
      if actor_role == "superadmin" then
        replaceClientPerms db user_id payload
      else
        if target_role == "admin" || target_role == "superadmin" then
          (db, .error ⟨403, .adminsOnlyAssignToMembers⟩)
        else
          let admin_client_ids := actorAssignedClientIds db actor_id
          if admin_client_ids.isEmpty then
            (db, .error ⟨403, .noAssignedClientsToShare⟩)
          else
            let requested := pySet (payload.map (fun p => p.client_id))
            let unauthorized := requested.filter (fun c => ! admin_client_ids.contains c)
            if ! unauthorized.isEmpty then
              (db, .error ⟨403, .unauthorizedClients unauthorized⟩)
            else
              replaceClientPerms db user_id payload

/-- `metrics.METRICS_CACHE_TTL_MINUTES = 30`. -/
def METRICS_CACHE_TTL_MINUTES : Int := 30

/-- Python `str.lower()` restricted to ASCII case mapping (all provider
names involved are ASCII). -/
def pyLower (s : String) : String :=
  ⟨s.data.map Char.toLower⟩

/-- `(meta.get("provider") or "aws").lower()`: an unset or empty (falsy)
provider falls back to `aws`; otherwise the value is lowercased. -/
def resolveProvider (provider : Option String) : String :=
  match provider with
  | none => "aws"
  | some p => if p == "" then "aws" else pyLower p

/-- One step of taking the maximum-`fetched_at` row (the effect of
`order_by(desc(fetched_at)).limit(1)`); the first row wins ties. -/
def latestPick (acc : Option CloudMetricsCache) (e : CloudMetricsCache) :
    Option CloudMetricsCache :=
  match acc with
  | none => some e
  | some b => if e.fetched_at > b.fetched_at then some e else some b

/-- The cache query of the orchestrator: the most recent snapshot row for
the (tenant, provider) key, or none. -/
def latestCacheEntry (cache : List CloudMetricsCache) (tenant_id : Nat) (provider : String) :
    Option CloudMetricsCache :=
  (cache.filter (fun e => e.tenant_id == tenant_id && e.provider == provider)).foldl
    latestPick none

/-- The freshness test of the orchestrator:
`cache_age.total_seconds() < METRICS_CACHE_TTL_MINUTES * 60`. -/
def cacheIsFresh (now fetched_at : Int) : Bool :=
  now - fetched_at < METRICS_CACHE_TTL_MINUTES * 60

/-- Step 5 of the orchestrator: one summary key `{category}_{resource_type}`
per resource list, holding that list's length.  (The `error` string of a
degraded fetch is not a category, matching the source's isinstance guard.) -/
def computeSummary (resources : List (String × CategoryData)) : List (String × Nat) :=
  (resources.map (fun c => c.2.map (fun t => (c.1 ++ "_" ++ t.1, t.2.length)))).flatten

/-- The unknown-provider inventory of the orchestrator: every category
present and empty. -/
def emptyProviderShape : List (String × CategoryData) :=
  [("compute", []), ("database", []), ("storage", []), ("networking", []),
   ("security", []), ("analytics", []), ("messaging", [])]

/-- The decoded JWT dict handed to a handler by `get_current_user`
(an authenticated caller). -/
structure SessionUser where
  user_id : Nat
  username : String
  role : String
deriving Repr, DecidableEq

/-- Response of `GET /metrics/resources/{client_id}`. -/
structure InvResponse where
  client_id : Nat
  client_name : String
  provider : String
  resources : Inventory
  summary : List (String × Nat)
  cached : Bool
  fetched_at : Int
deriving Repr, DecidableEq

/-- Step 4 of the orchestrator: route to the fetcher of the resolved
provider; an unknown provider yields the empty-category structure instead. -/
def routeProviderFetch (fetch : String → Nat → Inventory) (client_id : Nat)
    (provider : String) : Inventory :=
  if provider == "aws" then fetch "aws" client_id
  else if provider == "azure" then fetch "azure" client_id
  else if provider == "gcp" then fetch "gcp" client_id
  else ⟨emptyProviderShape, none⟩

/-- `metrics.get_resource_inventory`, the Resource Inventory Orchestrator.
`fetch provider client_id` is the provider-inventory-fetcher oracle standing
for `fetch_aws_resources` / `fetch_azure_resources` / `fetch_gcp_resources`
on this client's stored credentials.  The `current_user` parameter is the
authenticated caller, present in the source signature and never read by the
body. -/
def get_resource_inventory (fetch : String → Nat → Inventory) (db : DB) (now : Int)
    (client_id : Nat) (force_refresh : Bool) (current_user : SessionUser) :
    DB × Except HErr InvResponse :=
  match db.tenants.find? (fun t => t.id == client_id) with
  | none => (db, .error ⟨404, .clientNotFound⟩)
  | some client =>
    let provider := resolveProvider client.provider
    let freshEntry : Option CloudMetricsCache :=
      if force_refresh then none
      else
        match latestCacheEntry db.cache client_id provider with
        | none => none
        | some e => if cacheIsFresh now e.fetched_at then some e else none
    match freshEntry with
    | some e =>
      (db, .ok { client_id := client_id, client_name := client.name, provider := provider,
                 resources := e.resources, summary := e.summary,
                 cached := true, fetched_at := e.fetched_at })
    | none =>
      let resources : Inventory := routeProviderFetch fetch client_id provider
      let summary := computeSummary resources.categories
      let entry : CloudMetricsCache :=
        { tenant_id := client_id, provider := provider, resources := resources,
          summary := summary, fetched_at := now }
      ({ db with cache := db.cache ++ [entry] },
       .ok { client_id := client_id, client_name := client.name, provider := provider,
             resources := resources, summary := summary, cached := false, fetched_at := now })

/-- The AWS credential fields `fetch_aws_resources` reads from the tenant
metadata dict (each possibly absent). -/
structure AwsCredentials where
  clientId : Option String
  clientSecret : Option String
  access_key : Option String
  secret_key : Option String
  region : Option String
deriving Repr, DecidableEq

/-- Python truthiness of an optional string: `None` and `""` are falsy. -/
def pyTruthy : Option String → Bool
  | none => false
  | some s => s != ""

/-- Python `a or b` on optional strings. -/
def pyOr (a b : Option String) : Option String :=
  if pyTruthy a then a else b

/-- Outcome of one per-service sub-fetch inside `fetch_aws_resources`:
either the records collected, or an exception caught by that service's
local `try/except` block. -/
inductive SvcFetch where
  | ok (records : List String)
  | fail (msg : String)
deriving Repr, DecidableEq

/-- The record list a sub-fetch contributes: its records on success, the
empty list when its local `except` block caught an exception. -/
def SvcFetch.val : SvcFetch → List String
  | .ok l => l
  | .fail _ => []

/-- The boto3 environment `fetch_aws_resources` runs against: one sub-fetch
outcome per AWS service, plus `top_error`, an exception escaping the
per-service blocks (e.g. session/client construction failing), caught by the
function's outer `try/except`. -/
structure AwsEnv where
  top_error : Option String
  ec2 : SvcFetch
  asg : SvcFetch
  lambdas : SvcFetch
  ecs : SvcFetch
  eks : SvcFetch
  rds : SvcFetch
  dynamodb : SvcFetch
  elasticache : SvcFetch
  s3 : SvcFetch
  ebs : SvcFetch
  vpc : SvcFetch
  sg : SvcFetch
  elb : SvcFetch
  cloudfront : SvcFetch
  route53 : SvcFetch
  api_gateway : SvcFetch
  sns : SvcFetch
  sqs : SvcFetch
  iam : SvcFetch
  kms : SvcFetch
deriving Repr, DecidableEq

/-- The full AWS inventory skeleton: the categories and resource types of
both the missing-credentials return and the success-path `result` dict
(every list empty). -/
def awsFullEmptyShape : List (String × CategoryData) :=
  [("compute", [("ec2", []), ("asg", []), ("lambda", []), ("ecs", []), ("eks", [])]),
   ("database", [("rds", []), ("dynamodb", []), ("elasticache", [])]),
   ("storage", [("s3", []), ("ebs", [])]),
   ("networking", [("vpc", []), ("sg", []), ("elb", []), ("cloudfront", []), ("route53", [])]),
   ("security", [("iam", []), ("kms", [])]),
   ("messaging", [("sns", []), ("sqs", [])]),
   ("api", [("api_gateway", [])])]

/-- The return of the outer `except` block of `fetch_aws_resources`: note it
has no `messaging` or `api` category and no `route53` list — a strictly
smaller shape than `awsFullEmptyShape`. -/
def awsExceptionResult (e : String) : Inventory :=
  { categories :=
      [("compute", [("ec2", []), ("asg", []), ("lambda", []), ("ecs", []), ("eks", [])]),
       ("database", [("rds", []), ("dynamodb", []), ("elasticache", [])]),
       ("storage", [("s3", []), ("ebs", [])]),
       ("networking", [("vpc", []), ("sg", []), ("elb", []), ("cloudfront", [])]),
       ("security", [("iam", []), ("kms", [])])],
    error := some e }

/-- `metrics.fetch_aws_resources`.  Credential resolution uses Python `or`
(`clientId or access_key`, `clientSecret or secret_key`); missing
credentials return the full empty shape plus an error string; an exception
outside the per-service blocks returns `awsExceptionResult`; otherwise each
service contributes its records, a failed service contributing `[]`.
(The source stores the successful IAM fetch as a `{users, roles}` dict; it
is flattened to one record list here — no claim depends on that value.) -/
def fetch_aws_resources (creds : AwsCredentials) (env : AwsEnv) : Inventory :=
  let access_key := pyOr creds.clientId creds.access_key
  let secret_key := pyOr creds.clientSecret creds.secret_key
  if ! (pyTruthy access_key && pyTruthy secret_key) then
    { categories := awsFullEmptyShape, error := some "Missing AWS credentials" }
  else
    match env.top_error with
    | some e => awsExceptionResult e
    | none =>
      { categories :=
          [("compute", [("ec2", env.ec2.val), ("asg", env.asg.val), ("lambda", env.lambdas.val),
                        ("ecs", env.ecs.val), ("eks", env.eks.val)]),
           ("database", [("rds", env.rds.val), ("dynamodb", env.dynamodb.val),
                         ("elasticache", env.elasticache.val)]),
           ("storage", [("s3", env.s3.val), ("ebs", env.ebs.val)]),
           ("networking", [("vpc", env.vpc.val), ("sg", env.sg.val), ("elb", env.elb.val),
                           ("cloudfront", env.cloudfront.val), ("route53", env.route53.val)]),
           ("security", [("iam", env.iam.val), ("kms", env.kms.val)]),
           ("messaging", [("sns", env.sns.val), ("sqs", env.sqs.val)]),
           ("api", [("api_gateway", env.api_gateway.val)])],
        error := none }

/-- One recommendation dict, reduced to the fields the post-processing
reads (`severity`, `estimated_savings`) plus an identity. -/
structure Finding where
  id : String
  category : String
  severity : String
  estimated_savings : ℚ
deriving Repr, DecidableEq

/-- `severity_order = {'critical': 0, 'high': 1, 'medium': 2, 'low': 3}`
with `.get(severity, 3)`. -/
def severity_order (s : String) : Nat :=
  if s == "critical" then 0
  else if s == "high" then 1
  else if s == "medium" then 2
  else 3

/-- The Step-4 filter predicate of `get_optimization_recommendations`:
`estimated_savings >= 0.20 or severity in ['critical', 'high']`. -/
def keepFinding (r : Finding) : Bool :=
  decide (r.estimated_savings ≥ 20 / 100) || ["critical", "high"].contains r.severity

/-- Insertion of one finding into an already-sorted list, keeping the
inserted (originally earlier) element ahead of equal-rank elements. -/
def insertBySeverity (x : Finding) : List Finding → List Finding
  | [] => [x]
  | y :: ys =>
    if severity_order y.severity < severity_order x.severity then y :: insertBySeverity x ys
    else x :: y :: ys

/-- `recommendations.sort(key=lambda x: severity_order.get(...))`: Python's
sort is stable; stable sorting by severity rank is embedded as stable
insertion sort. -/
def sortBySeverity (l : List Finding) : List Finding :=
  l.foldr insertBySeverity []

/-- Steps 4-5 of `get_optimization_recommendations`: filter out low-value
findings, then stable-sort by severity rank. -/
def postProcessRecommendations (l : List Finding) : List Finding :=
  sortBySeverity (l.filter keepFinding)

/-! ## Helper lemmas -/

theorem mem_pySet {α : Type} [BEq α] [LawfulBEq α] (l : List α) :
    ∀ a : α, a ∈ pySet l ↔ a ∈ l := by
  induction l with
  | nil => intro a; simp [pySet]
  | cons x xs ih =>
    intro a
    by_cases h : (pySet xs).contains x = true
    · rw [pySet, if_pos h]
      have hx : x ∈ xs := (ih x).mp (by simpa using h)
      constructor
      · intro h1
        exact List.mem_cons_of_mem _ ((ih a).mp h1)
      · intro h1
        rcases List.mem_cons.mp h1 with h1 | h1
        · subst h1
          exact (ih a).mpr hx
        · exact (ih a).mpr h1
    · rw [pySet, if_neg h]
      simp [ih]

/-! ## Claim theorems -/

/-- Role row for the C1 scenario: the user's role grants only
`dashboard.view`. -/
def c1role : Role :=
  { id := 1, name := "member", permissions := ["dashboard.view"] }

/-- User row for the C1 scenario: an override grants `clients.view` on top
of the role. -/
def c1user : User :=
  { id := 2, tenant_id := 1, username := "alice", role_id := some 1,
    assigned_client_id := none, user_perms := ["clients.view"] }

/-- Store for the C1 scenario. -/
def c1db : DB :=
  { users := [c1user], roles := [c1role],
    permissions := ["dashboard.view", "clients.view"],
    tenants := [], userClientPerms := [], cache := [] }

/-- **C1** (code bug, evaluated at the failing input): the claim says the
request-time check `has_permission` decides membership in
`effective_permissions` (role permissions ∪ user overrides).  The code's
`rbac.get_user_permissions` loads only the role's permissions, so for a user
whose override set contains `clients.view` the request-time check returns
`false` even though the effective-permissions endpoint reports
`clients.view` as effective (and as a user-specific permission). -/
theorem c1_has_permission_ignores_user_overrides :
    has_permission c1db (some 2) "clients.view" = false ∧
    ∃ resp, get_user_effective_permissions c1db 2 = Except.ok resp ∧
      "clients.view" ∈ resp.effective_permissions ∧
      "clients.view" ∈ resp.user_specific_permissions := by
  exact ⟨by decide, ⟨_, rfl, by decide, by decide⟩⟩

/-- **C3**: any grant or revoke call targeting the `superadmin` role is
rejected with status 403 (the dedicated superadmin-protection detail), the
store coming out of the call is the store that went in, and in particular
the superadmin role's permission set is unchanged — for every starting
store and every list of permission names. -/
theorem c3_superadmin_role_grant_revoke_rejected (db : DB) (perm_names : List String) :
    grant_permissions_to_role db "superadmin" perm_names
      = (db, Except.error ⟨403, Detail.cannotModifySuperadminRole⟩) ∧
    revoke_permissions_from_role db "superadmin" perm_names
      = (db, Except.error ⟨403, Detail.cannotModifySuperadminRole⟩) ∧
    rolePermissionSet (grant_permissions_to_role db "superadmin" perm_names).1 "superadmin"
      = rolePermissionSet db "superadmin" ∧
    rolePermissionSet (revoke_permissions_from_role db "superadmin" perm_names).1 "superadmin"
      = rolePermissionSet db "superadmin" := by
  exact ⟨rfl, rfl, rfl, rfl⟩

/-- **C2**: the client-list handler returns every tenant when the caller's
role is `superadmin`, and otherwise returns exactly the tenants that occur
in the caller's own assignment rows.  The characterising `↔` makes the
"never more, never fewer" direction explicit; the caller's legacy
`assigned_client_id` column appears nowhere in it. -/
theorem c2_list_clients_visibility (db : DB) (uid : Nat) (u : User)
    (hu : lookupUser db uid = some u) :
    ((roleObj db u).any (fun r => r.name == "superadmin") = true →
      list_clients db uid = Except.ok db.tenants) ∧
    ((roleObj db u).any (fun r => r.name == "superadmin") = false →
      ∃ l, list_clients db uid = Except.ok l ∧
        ∀ t : Tenant, t ∈ l ↔ t ∈ db.tenants ∧
          ∃ p ∈ db.userClientPerms, p.user_id = uid ∧ p.client_id = t.id) := by
  constructor
  · intro hs
    simp [list_clients, hu, hs]
  · intro hs
    have hrun : list_clients db uid
        = Except.ok (db.tenants.filter (fun t =>
            db.userClientPerms.any (fun p => p.user_id == uid && p.client_id == t.id))) := by
      simp [list_clients, hu, hs]
    refine ⟨_, hrun, ?_⟩
    intro t
    simp [List.mem_filter, List.any_eq_true, Bool.and_eq_true, beq_iff_eq]

/-- First tenant of the C2 scenario, assigned to the caller. -/
def c2tenantA : Tenant := { id := 1, name := "Acme", provider := some "aws" }

/-- Second tenant of the C2 scenario: the caller's legacy
`assigned_client_id` points here, but there is no assignment row. -/
def c2tenantB : Tenant := { id := 2, name := "Beta", provider := some "azure" }

/-- Non-superadmin role of the C2 scenario. -/
def c2role : Role := { id := 1, name := "member", permissions := [] }

/-- Caller of the C2 scenario. -/
def c2user : User :=
  { id := 2, tenant_id := 1, username := "bob", role_id := some 1,
    assigned_client_id := some 2, user_perms := [] }

/-- Store of the C2 scenario: one assignment row, (user 2, client 1). -/
def c2db : DB :=
  { users := [c2user], roles := [c2role], permissions := [],
    tenants := [c2tenantA, c2tenantB],
    userClientPerms := [⟨2, 1, "viewer"⟩], cache := [] }

/-- Witness for C2: the theorem instantiated on the concrete store. -/
theorem c2_list_clients_visibility_witness :
    lookupUser c2db 2 = some c2user ∧
    ∃ l, list_clients c2db 2 = Except.ok l ∧
      ∀ t : Tenant, t ∈ l ↔ t ∈ c2db.tenants ∧
        ∃ p ∈ c2db.userClientPerms, p.user_id = 2 ∧ p.client_id = t.id :=
  ⟨rfl, (c2_list_clients_visibility c2db 2 c2user rfl).2 (by decide)⟩

/-- **C4**: a non-superadmin actor who owns at least one assignment row and
targets a user that passes the role comparison (not admin, not superadmin)
gets a 403 whose detail carries exactly the requested client ids that are
missing from the actor's own assignment rows, and the store — in particular
the target's assignment rows — is returned unchanged. -/
theorem c4_unauthorized_client_assignment_rejected (db : DB) (actor_id target_id : Nat)
    (payload : List ClientPermissionCreate) (actor target : User)
    (ha : lookupUser db actor_id = some actor)
    (har : roleNameOf db actor ≠ "superadmin")
    (ht : lookupUser db target_id = some target)
    (htr1 : roleNameOf db target ≠ "admin")
    (htr2 : roleNameOf db target ≠ "superadmin")
    (hassigned : actorAssignedClientIds db actor_id ≠ [])
    (hbad : ∃ p ∈ payload, p.client_id ∉ actorAssignedClientIds db actor_id) :
    ∃ ids, update_user_client_permissions db actor_id target_id payload
        = (db, Except.error ⟨403, Detail.unauthorizedClients ids⟩) ∧
      ids ≠ [] ∧
      (∀ i, i ∈ ids ↔ (∃ p ∈ payload, p.client_id = i) ∧
        i ∉ actorAssignedClientIds db actor_id) := by
  have hA : (roleNameOf db actor == "superadmin") = false := by
    simp [har]
  have hT1 : (roleNameOf db target == "admin") = false := by
    simp [htr1]
  have hT2 : (roleNameOf db target == "superadmin") = false := by
    simp [htr2]
  have hAe : (actorAssignedClientIds db actor_id).isEmpty = false := by
    cases hc : actorAssignedClientIds db actor_id with
    | nil => exact absurd hc hassigned
    | cons x xs => rfl
  have hmemU : ∀ i, i ∈ (pySet (payload.map (fun p => p.client_id))).filter
      (fun c => ! (actorAssignedClientIds db actor_id).contains c) ↔
      (∃ p ∈ payload, p.client_id = i) ∧ i ∉ actorAssignedClientIds db actor_id := by
    intro i
    simp [List.mem_filter, mem_pySet]
  have hUne : (pySet (payload.map (fun p => p.client_id))).filter
      (fun c => ! (actorAssignedClientIds db actor_id).contains c) ≠ [] := by
    obtain ⟨p, hp, hpn⟩ := hbad
    exact List.ne_nil_of_mem ((hmemU p.client_id).mpr ⟨⟨p, hp, rfl⟩, hpn⟩)
  have hUe : ((pySet (payload.map (fun p => p.client_id))).filter
      (fun c => ! (actorAssignedClientIds db actor_id).contains c)).isEmpty = false := by
    cases hc : (pySet (payload.map (fun p => p.client_id))).filter
        (fun c => ! (actorAssignedClientIds db actor_id).contains c) with
    | nil => exact absurd hc hUne
    | cons x xs => rfl
  refine ⟨(pySet (payload.map (fun p => p.client_id))).filter
      (fun c => ! (actorAssignedClientIds db actor_id).contains c), ?_, hUne, hmemU⟩
  simp [update_user_client_permissions, ha, ht, hA, hT1, hT2, hAe, hUe]
  intro hall
  obtain ⟨i, hi⟩ := List.exists_mem_of_ne_nil _ hUne
  exact absurd (hall i (List.mem_filter.mp hi).1) ((hmemU i).mp hi).2

/-- Admin role for the C4 scenario. -/
def c4roleAdmin : Role := { id := 1, name := "admin", permissions := ["clients.assign"] }

/-- Member role for the C4 scenario. -/
def c4roleMember : Role := { id := 2, name := "member", permissions := [] }

/-- The C4 actor: an admin. -/
def c4actor : User :=
  { id := 10, tenant_id := 1, username := "carol", role_id := some 1,
    assigned_client_id := none, user_perms := [] }

/-- The C4 target: a member (a legal target by role comparison). -/
def c4target : User :=
  { id := 20, tenant_id := 1, username := "xavier", role_id := some 2,
    assigned_client_id := none, user_perms := [] }

/-- Store of the C4 scenario (the spec's end-to-end case): the actor's only
assignment row is client 7 with level `editor`. -/
def c4db : DB :=
  { users := [c4actor, c4target], roles := [c4roleAdmin, c4roleMember],
    permissions := ["clients.assign"],
    tenants := [⟨7, "Seven", some "aws"⟩, ⟨9, "Nine", some "aws"⟩],
    userClientPerms := [⟨10, 7, "editor"⟩], cache := [] }

/-- Witness for C4: assigning client 9 fails with a 403 naming client 9. -/
theorem c4_unauthorized_client_assignment_rejected_witness :
    ∃ ids, update_user_client_permissions c4db 10 20 [⟨9, "viewer"⟩]
        = (c4db, Except.error ⟨403, Detail.unauthorizedClients ids⟩) ∧
      ids ≠ [] ∧
      (∀ i, i ∈ ids ↔ (∃ p ∈ [ClientPermissionCreate.mk 9 "viewer"], p.client_id = i) ∧
        i ∉ actorAssignedClientIds c4db 10) :=
  c4_unauthorized_client_assignment_rejected c4db 10 20 [⟨9, "viewer"⟩] c4actor c4target
    rfl (by decide) rfl (by decide) (by decide) (by decide) (by decide)

/-- The findings of one severity rank, in emission order. -/
def severityBucket (i : Nat) (l : List Finding) : List Finding :=
  l.filter (fun r => severity_order r.severity == i)

theorem severity_order_cases (s : String) :
    severity_order s = 0 ∨ severity_order s = 1 ∨ severity_order s = 2 ∨
      severity_order s = 3 := by
  unfold severity_order
  split
  · exact Or.inl rfl
  split
  · exact Or.inr (Or.inl rfl)
  split
  · exact Or.inr (Or.inr (Or.inl rfl))
  · exact Or.inr (Or.inr (Or.inr rfl))

theorem insertBySeverity_append_lt (x : Finding) (A B : List Finding)
    (h : ∀ a ∈ A, severity_order a.severity < severity_order x.severity) :
    insertBySeverity x (A ++ B) = A ++ insertBySeverity x B := by
  induction A with
  | nil => rfl
  | cons a A ih =>
    have ha := h a (List.mem_cons_self a A)
    simp [insertBySeverity, ha, ih (fun b hb => h b (List.mem_cons_of_mem a hb))]

theorem insertBySeverity_ge (x : Finding) (B : List Finding)
    (h : ∀ b ∈ B, severity_order x.severity ≤ severity_order b.severity) :
    insertBySeverity x B = x :: B := by
  cases B with
  | nil => rfl
  | cons y ys =>
    have hy : ¬ severity_order y.severity < severity_order x.severity :=
      not_lt.mpr (h y (List.mem_cons_self y ys))
    simp [insertBySeverity, hy]

theorem mem_severityBucket {i : Nat} {l : List Finding} {a : Finding}
    (h : a ∈ severityBucket i l) : severity_order a.severity = i := by
  have h2 := (List.mem_filter.mp h).2
  simpa using h2

theorem sortBySeverity_buckets (l : List Finding) :
    sortBySeverity l
      = severityBucket 0 l ++ severityBucket 1 l ++ severityBucket 2 l
        ++ severityBucket 3 l := by
  induction l with
  | nil => rfl
  | cons x m ih =>
    have hsort : sortBySeverity (x :: m) = insertBySeverity x (sortBySeverity m) := rfl
    rw [hsort, ih]
    rcases severity_order_cases x.severity with hk | hk | hk | hk
    · have h1 := insertBySeverity_ge x
        (severityBucket 0 m ++ severityBucket 1 m ++ severityBucket 2 m ++ severityBucket 3 m)
        (fun b hb => by rw [hk]; exact Nat.zero_le _)
      rw [h1]
      simp [severityBucket, List.filter_cons, hk]
    · have h1 := insertBySeverity_append_lt x (severityBucket 0 m)
        (severityBucket 1 m ++ severityBucket 2 m ++ severityBucket 3 m)
        (fun a ha => by simp [mem_severityBucket ha, hk])
      have h2 := insertBySeverity_ge x
        (severityBucket 1 m ++ severityBucket 2 m ++ severityBucket 3 m)
        (fun b hb => by
          rw [hk]
          rcases List.mem_append.mp hb with hb | hb
          · rcases List.mem_append.mp hb with hb | hb
            · simp [mem_severityBucket hb]
            · simp [mem_severityBucket hb]
          · simp [mem_severityBucket hb])
      simp only [List.append_assoc] at h1 h2 ⊢
      rw [h1, h2]
      simp [severityBucket, List.filter_cons, hk]
    · have h1 := insertBySeverity_append_lt x (severityBucket 0 m)
        (severityBucket 1 m ++ severityBucket 2 m ++ severityBucket 3 m)
        (fun a ha => by simp [mem_severityBucket ha, hk])
      have h2 := insertBySeverity_append_lt x (severityBucket 1 m)
        (severityBucket 2 m ++ severityBucket 3 m)
        (fun a ha => by simp [mem_severityBucket ha, hk])
      have h3 := insertBySeverity_ge x (severityBucket 2 m ++ severityBucket 3 m)
        (fun b hb => by
          rw [hk]
          rcases List.mem_append.mp hb with hb | hb
          · simp [mem_severityBucket hb]
          · simp [mem_severityBucket hb])
      simp only [List.append_assoc] at h1 h2 h3 ⊢
      rw [h1, h2, h3]
      simp [severityBucket, List.filter_cons, hk]
    · have h1 := insertBySeverity_append_lt x (severityBucket 0 m)
        (severityBucket 1 m ++ severityBucket 2 m ++ severityBucket 3 m)
        (fun a ha => by simp [mem_severityBucket ha, hk])
      have h2 := insertBySeverity_append_lt x (severityBucket 1 m)
        (severityBucket 2 m ++ severityBucket 3 m)
        (fun a ha => by simp [mem_severityBucket ha, hk])
      have h3 := insertBySeverity_append_lt x (severityBucket 2 m)
        (severityBucket 3 m)
        (fun a ha => by simp [mem_severityBucket ha, hk])
      have h4 := insertBySeverity_ge x (severityBucket 3 m)
        (fun b hb => by rw [hk, mem_severityBucket hb])
      simp only [List.append_assoc] at h1 h2 h3 h4 ⊢
      rw [h1, h2, h3, h4]
      simp [severityBucket, List.filter_cons, hk]

/-- The low-value finding of the spec's filtering example. -/
def c9low : Finding :=
  { id := "r1", category := "cost", severity := "low", estimated_savings := 1 / 10 }

/-- The critical finding of the spec's filtering example. -/
def c9crit : Finding :=
  { id := "r2", category := "security", severity := "critical", estimated_savings := 1 / 10 }

/-- **C9**: the recommendation post-processing keeps exactly the findings
with `estimated_savings >= 0.20` or severity critical/high, and emits them
grouped by severity rank critical, high, medium, low, each group in original
emission order — the bucket decomposition is precisely "sorted by rank,
stable".  The last conjunct is the spec's concrete example: a 0.10-savings
low finding is dropped while a 0.10-savings critical one is kept. -/
theorem c9_recommendation_postprocessing (l : List Finding) (r : Finding) :
    postProcessRecommendations l
      = severityBucket 0 (l.filter keepFinding) ++ severityBucket 1 (l.filter keepFinding)
        ++ severityBucket 2 (l.filter keepFinding) ++ severityBucket 3 (l.filter keepFinding) ∧
    (keepFinding r = true ↔
      r.estimated_savings ≥ 20 / 100 ∨ r.severity = "critical" ∨ r.severity = "high") ∧
    postProcessRecommendations [c9low, c9crit] = [c9crit] := by
  refine ⟨sortBySeverity_buckets (l.filter keepFinding), ?_, ?_⟩
  · simp [keepFinding, or_assoc]
  · have hlow : keepFinding c9low = false := by
      norm_num [keepFinding, c9low]
      decide
    have hcrit : keepFinding c9crit = true := by
      norm_num [keepFinding, c9crit]
    simp [postProcessRecommendations, sortBySeverity, insertBySeverity,
      List.filter_cons, hlow, hcrit]

theorem foldl_latestPick_mem (l : List CloudMetricsCache) :
    ∀ acc b, l.foldl latestPick acc = some b → b ∈ l ∨ acc = some b := by
  induction l with
  | nil =>
    intro acc b h
    exact Or.inr h
  | cons x xs ih =>
    intro acc b h
    rcases ih (latestPick acc x) b h with h1 | h1
    · exact Or.inl (List.mem_cons_of_mem x h1)
    · cases acc with
      | none =>
        have hx : x = b := by simpa [latestPick] using h1
        exact Or.inl (hx ▸ List.mem_cons_self x xs)
      | some a =>
        by_cases hgt : x.fetched_at > a.fetched_at
        · have hx : x = b := by simpa [latestPick, hgt] using h1
          exact Or.inl (hx ▸ List.mem_cons_self x xs)
        · have hx : a = b := by simpa [latestPick, hgt] using h1
          exact Or.inr (by rw [hx])

theorem latestCacheEntry_mem (cache : List CloudMetricsCache) (cid : Nat) (prov : String)
    (b : CloudMetricsCache) (h : latestCacheEntry cache cid prov = some b) :
    b ∈ cache ∧ b.tenant_id = cid ∧ b.provider = prov := by
  unfold latestCacheEntry at h
  rcases foldl_latestPick_mem _ none b h with h1 | h1
  · have h2 := List.mem_filter.mp h1
    have h3 : b.tenant_id = cid ∧ b.provider = prov := by
      simpa [Bool.and_eq_true, beq_iff_eq] using h2.2
    exact ⟨h2.1, h3⟩
  · cases h1

theorem latestCacheEntry_append_newest (cache : List CloudMetricsCache)
    (e : CloudMetricsCache) (cid : Nat) (prov : String)
    (he1 : e.tenant_id = cid) (he2 : e.provider = prov)
    (h : ∀ b ∈ cache, b.tenant_id = cid → b.provider = prov →
      b.fetched_at < e.fetched_at) :
    latestCacheEntry (cache ++ [e]) cid prov = some e := by
  unfold latestCacheEntry
  rw [List.filter_append]
  have hfe : (([e] : List CloudMetricsCache).filter
      (fun x => x.tenant_id == cid && x.provider == prov)) = [e] := by
    simp [he1, he2]
  rw [hfe, List.foldl_append]
  cases hacc : (cache.filter (fun x => x.tenant_id == cid && x.provider == prov)).foldl
      latestPick none with
  | none => simp [latestPick]
  | some b =>
    rcases foldl_latestPick_mem _ none b hacc with hb | hb
    · have hmem := List.mem_filter.mp hb
      have h1 : b.tenant_id = cid ∧ b.provider = prov := by
        simpa [Bool.and_eq_true, beq_iff_eq] using hmem.2
      have hlt : b.fetched_at < e.fetched_at := h b hmem.1 h1.1 h1.2
      simp [latestPick, hlt]
    · cases hb

/-- **C5**: with the tenant present and every existing snapshot for its
(tenant, provider) key stale at `now1`, a first non-forced call fetches
(`cached = false`, `fetched_at = now1`) and a second non-forced call within
the 30-minute TTL returns exactly the first call's response with
`cached = true` — same payload, same summary, and `fetched_at` equal to the
stored snapshot's timestamp.  The last conjunct is the freshness criterion
itself: a snapshot is fresh exactly when `now - fetched_at` is strictly
below 30 minutes. -/
theorem c5_second_call_within_ttl_cached (fetch : String → Nat → Inventory) (db : DB)
    (now1 now2 : Int) (cid : Nat) (u1 u2 : SessionUser) (client : Tenant)
    (hc : db.tenants.find? (fun t => t.id == cid) = some client)
    (hstale : ∀ b ∈ db.cache, b.tenant_id = cid →
      b.provider = resolveProvider client.provider →
      now1 - b.fetched_at ≥ METRICS_CACHE_TTL_MINUTES * 60)
    (h12 : now1 ≤ now2)
    (httl : now2 - now1 < METRICS_CACHE_TTL_MINUTES * 60) :
    ∃ resp1,
      (get_resource_inventory fetch db now1 cid false u1).2 = Except.ok resp1 ∧
      resp1.cached = false ∧ resp1.fetched_at = now1 ∧
      (get_resource_inventory fetch (get_resource_inventory fetch db now1 cid false u1).1
          now2 cid false u2).2 = Except.ok { resp1 with cached := true } ∧
      (∀ n f : Int, cacheIsFresh n f = true ↔ n - f < 30 * 60) := by
  have hcall1 : get_resource_inventory fetch db now1 cid false u1 =
      ({ db with cache := db.cache ++
          [⟨cid, resolveProvider client.provider,
            routeProviderFetch fetch cid (resolveProvider client.provider),
            computeSummary (routeProviderFetch fetch cid (resolveProvider client.provider)).categories,
            now1⟩] },
       Except.ok ⟨cid, client.name, resolveProvider client.provider,
          routeProviderFetch fetch cid (resolveProvider client.provider),
          computeSummary (routeProviderFetch fetch cid (resolveProvider client.provider)).categories,
          false, now1⟩) := by
    cases hle : latestCacheEntry db.cache cid (resolveProvider client.provider) with
    | none => simp [get_resource_inventory, hc, hle]
    | some b =>
      obtain ⟨hbmem, hbt, hbp⟩ := latestCacheEntry_mem _ _ _ _ hle
      have hge := hstale b hbmem hbt hbp
      have hfr : cacheIsFresh now1 b.fetched_at = false := by
        simp only [cacheIsFresh, METRICS_CACHE_TTL_MINUTES] at *
        simp
        omega
      simp [get_resource_inventory, hc, hle, hfr]
  have hnew : ∀ b ∈ db.cache, b.tenant_id = cid →
      b.provider = resolveProvider client.provider → b.fetched_at < now1 := by
    intro b hb h1 h2
    have := hstale b hb h1 h2
    simp only [METRICS_CACHE_TTL_MINUTES] at this
    omega
  have hle2 : latestCacheEntry
      (db.cache ++ [⟨cid, resolveProvider client.provider,
        routeProviderFetch fetch cid (resolveProvider client.provider),
        computeSummary (routeProviderFetch fetch cid (resolveProvider client.provider)).categories,
        now1⟩]) cid (resolveProvider client.provider) = some
      ⟨cid, resolveProvider client.provider,
        routeProviderFetch fetch cid (resolveProvider client.provider),
        computeSummary (routeProviderFetch fetch cid (resolveProvider client.provider)).categories,
        now1⟩ :=
    latestCacheEntry_append_newest _ _ _ _ rfl rfl hnew
  have hfr2 : cacheIsFresh now2 now1 = true := by
    simp only [cacheIsFresh, METRICS_CACHE_TTL_MINUTES] at *
    simp
    omega
  refine ⟨⟨cid, client.name, resolveProvider client.provider,
      routeProviderFetch fetch cid (resolveProvider client.provider),
      computeSummary (routeProviderFetch fetch cid (resolveProvider client.provider)).categories,
      false, now1⟩, ?_, rfl, rfl, ?_, ?_⟩
  · rw [hcall1]
  · rw [hcall1]
    simp [get_resource_inventory, hc, hle2, hfr2]
  · intro n f
    simp only [cacheIsFresh, METRICS_CACHE_TTL_MINUTES]
    constructor
    · intro h
      have := of_decide_eq_true h
      omega
    · intro h
      apply decide_eq_true
      omega

/-- Tenant of the C5/C6 witnesses. -/
def c5tenant : Tenant := { id := 3, name := "Gamma", provider := some "aws" }

/-- Store of the C5/C6 witnesses: one tenant, empty cache. -/
def c5db : DB :=
  { users := [], roles := [], permissions := [], tenants := [c5tenant],
    userClientPerms := [], cache := [] }

/-- Fetcher oracle of the C5/C6 witnesses. -/
def c5fetch : String → Nat → Inventory :=
  fun _ _ => ⟨[("compute", [("ec2", ["i-1"])])], none⟩

/-- Session users of the C5/C6/C10 witnesses. -/
def c5caller : SessionUser := { user_id := 1, username := "root", role := "superadmin" }

/-- Witness for C5: both calls run on the concrete store. -/
theorem c5_second_call_within_ttl_cached_witness :
    ∃ resp1,
      (get_resource_inventory c5fetch c5db 1000 3 false c5caller).2 = Except.ok resp1 ∧
      resp1.cached = false ∧ resp1.fetched_at = 1000 ∧
      (get_resource_inventory c5fetch
          (get_resource_inventory c5fetch c5db 1000 3 false c5caller).1
          2000 3 false c5caller).2 = Except.ok { resp1 with cached := true } ∧
      (∀ n f : Int, cacheIsFresh n f = true ↔ n - f < 30 * 60) :=
  c5_second_call_within_ttl_cached c5fetch c5db 1000 2000 3 c5caller c5caller c5tenant
    rfl (by intro b hb; cases hb) (by decide) (by decide)

/-- **C6**: a forced call never serves from cache: it returns `cached =
false` with `fetched_at = now`, which is strictly later than every prior
snapshot for the key; its only write is appending one new snapshot row to
the cache table (no prior row is updated or deleted); and its response is
the same whatever the cache table holds — the freshness check is never
consulted. -/
theorem c6_force_refresh_always_fetches (fetch : String → Nat → Inventory) (db : DB)
    (now : Int) (cid : Nat) (u : SessionUser) (client : Tenant)
    (hc : db.tenants.find? (fun t => t.id == cid) = some client)
    (hprior : ∀ b ∈ db.cache, b.tenant_id = cid →
      b.provider = resolveProvider client.provider → b.fetched_at < now) :
    ∃ resp,
      (get_resource_inventory fetch db now cid true u).2 = Except.ok resp ∧
      resp.cached = false ∧ resp.fetched_at = now ∧
      (∀ b ∈ db.cache, b.tenant_id = cid →
        b.provider = resolveProvider client.provider → b.fetched_at < resp.fetched_at) ∧
      (get_resource_inventory fetch db now cid true u).1.cache
        = db.cache ++ [⟨cid, resolveProvider client.provider, resp.resources,
            resp.summary, now⟩] ∧
      (∀ cache2 : List CloudMetricsCache,
        (get_resource_inventory fetch { db with cache := cache2 } now cid true u).2
          = Except.ok resp) := by
  refine ⟨⟨cid, client.name, resolveProvider client.provider,
      routeProviderFetch fetch cid (resolveProvider client.provider),
      computeSummary (routeProviderFetch fetch cid (resolveProvider client.provider)).categories,
      false, now⟩, ?_, rfl, rfl, ?_, ?_, ?_⟩
  · simp [get_resource_inventory, hc]
  · intro b hb h1 h2
    exact hprior b hb h1 h2
  · simp [get_resource_inventory, hc]
  · intro cache2
    simp [get_resource_inventory, hc]

/-- Store of the C6 witness: the C5 tenant plus one prior snapshot for the
(tenant 3, aws) key at time 500. -/
def c6db : DB :=
  { users := [], roles := [], permissions := [], tenants := [c5tenant],
    userClientPerms := [],
    cache := [⟨3, "aws", ⟨[], none⟩, [], 500⟩] }

/-- Witness for C6: a forced refresh at time 1000 over the concrete store. -/
theorem c6_force_refresh_always_fetches_witness :
    ∃ resp,
      (get_resource_inventory c5fetch c6db 1000 3 true c5caller).2 = Except.ok resp ∧
      resp.cached = false ∧ resp.fetched_at = 1000 ∧
      (∀ b ∈ c6db.cache, b.tenant_id = 3 →
        b.provider = resolveProvider c5tenant.provider → b.fetched_at < resp.fetched_at) ∧
      (get_resource_inventory c5fetch c6db 1000 3 true c5caller).1.cache
        = c6db.cache ++ [⟨3, resolveProvider c5tenant.provider, resp.resources,
            resp.summary, 1000⟩] ∧
      (∀ cache2 : List CloudMetricsCache,
        (get_resource_inventory c5fetch { c6db with cache := cache2 } 1000 3 true c5caller).2
          = Except.ok resp) :=
  c6_force_refresh_always_fetches c5fetch c6db 1000 3 c5caller c5tenant rfl (by decide)

/-- **C7**: first conjunct — a tenant with no provider in its metadata is
resolved to the fixed default `aws` and served normally (no error).  Second
conjunct — a tenant with a provider outside aws/azure/gcp gets the
empty-shaped inventory (every category present and empty, empty summary),
which is stored as a normal snapshot and returned as a normal `cached =
false` response, never an error. -/
theorem c7_provider_fallback_and_unknown_empty (fetch : String → Nat → Inventory) :
    (∀ (db : DB) (now : Int) (cid : Nat) (ff : Bool) (u : SessionUser) (client : Tenant),
      db.tenants.find? (fun t => t.id == cid) = some client →
      client.provider = none →
      ∃ resp, (get_resource_inventory fetch db now cid ff u).2 = Except.ok resp ∧
        resp.provider = "aws") ∧
    (∀ (db : DB) (now : Int) (cid : Nat) (ff : Bool) (u : SessionUser) (client : Tenant)
      (p : String),
      db.tenants.find? (fun t => t.id == cid) = some client →
      client.provider = some p →
      pyLower p ≠ "aws" → pyLower p ≠ "azure" → pyLower p ≠ "gcp" → p ≠ "" →
      (∀ b ∈ db.cache, b.tenant_id = cid → b.provider = pyLower p →
        now - b.fetched_at ≥ METRICS_CACHE_TTL_MINUTES * 60) →
      ∃ resp, (get_resource_inventory fetch db now cid ff u).2 = Except.ok resp ∧
        resp.cached = false ∧ resp.resources = ⟨emptyProviderShape, none⟩ ∧
        resp.summary = [] ∧
        (get_resource_inventory fetch db now cid ff u).1.cache
          = db.cache ++ [⟨cid, pyLower p, ⟨emptyProviderShape, none⟩, [], now⟩]) := by
  constructor
  · intro db now cid ff u client hc hp
    have hres : resolveProvider client.provider = "aws" := by
      rw [hp]
      rfl
    cases ff with
    | true =>
      refine ⟨⟨cid, client.name, "aws", routeProviderFetch fetch cid "aws",
        computeSummary (routeProviderFetch fetch cid "aws").categories, false, now⟩, ?_, rfl⟩
      simp [get_resource_inventory, hc, hres]
    | false =>
      cases hle : latestCacheEntry db.cache cid "aws" with
      | none =>
        refine ⟨⟨cid, client.name, "aws", routeProviderFetch fetch cid "aws",
          computeSummary (routeProviderFetch fetch cid "aws").categories, false, now⟩, ?_, rfl⟩
        simp [get_resource_inventory, hc, hres, hle]
      | some e =>
        cases hfr : cacheIsFresh now e.fetched_at with
        | true =>
          refine ⟨⟨cid, client.name, "aws", e.resources, e.summary, true, e.fetched_at⟩,
            ?_, rfl⟩
          simp [get_resource_inventory, hc, hres, hle, hfr]
        | false =>
          refine ⟨⟨cid, client.name, "aws", routeProviderFetch fetch cid "aws",
            computeSummary (routeProviderFetch fetch cid "aws").categories, false, now⟩, ?_, rfl⟩
          simp [get_resource_inventory, hc, hres, hle, hfr]
  · intro db now cid ff u client p hc hp h1 h2 h3 hpe hstale
    have hpne : (p == "") = false := by
      simp [hpe]
    have hres : resolveProvider client.provider = pyLower p := by
      rw [hp]
      simp [resolveProvider, hpne]
    have b1 : (pyLower p == "aws") = false := by simp [h1]
    have b2 : (pyLower p == "azure") = false := by simp [h2]
    have b3 : (pyLower p == "gcp") = false := by simp [h3]
    have hroute : routeProviderFetch fetch cid (pyLower p) = ⟨emptyProviderShape, none⟩ := by
      simp [routeProviderFetch, b1, b2, b3]
    have hsum : computeSummary (emptyProviderShape) = [] := by decide
    have hmiss : (if ff then none
        else match latestCacheEntry db.cache cid (pyLower p) with
          | none => none
          | some e => if cacheIsFresh now e.fetched_at then some e else none)
        = (none : Option CloudMetricsCache) := by
      cases ff with
      | true => rfl
      | false =>
        cases hle : latestCacheEntry db.cache cid (pyLower p) with
        | none => rfl
        | some b =>
          obtain ⟨hbmem, hbt, hbp⟩ := latestCacheEntry_mem _ _ _ _ hle
          have hge := hstale b hbmem hbt hbp
          have hfr : cacheIsFresh now b.fetched_at = false := by
            simp only [cacheIsFresh, METRICS_CACHE_TTL_MINUTES] at *
            simp
            omega
          simp [hfr]
    refine ⟨⟨cid, client.name, pyLower p, ⟨emptyProviderShape, none⟩, [], false, now⟩,
      ?_, rfl, rfl, rfl, ?_⟩
    · simp [get_resource_inventory, hc, hres, hmiss, hroute, hsum]
    · simp [get_resource_inventory, hc, hres, hmiss, hroute, hsum]

/-- Tenant of the C7 witness, part one: no provider configured. -/
def c7tenantNone : Tenant := { id := 4, name := "Delta", provider := none }

/-- Tenant of the C7 witness, part two: a provider outside aws/azure/gcp. -/
def c7tenantOdd : Tenant := { id := 5, name := "Epsilon", provider := some "oracle" }

/-- Store of the C7 witness. -/
def c7db : DB :=
  { users := [], roles := [], permissions := [], tenants := [c7tenantNone, c7tenantOdd],
    userClientPerms := [], cache := [] }

/-- Witness for C7: both conjuncts run on the concrete store. -/
theorem c7_provider_fallback_and_unknown_empty_witness :
    (∃ resp, (get_resource_inventory c5fetch c7db 1000 4 false c5caller).2
        = Except.ok resp ∧ resp.provider = "aws") ∧
    (∃ resp, (get_resource_inventory c5fetch c7db 1000 5 true c5caller).2
        = Except.ok resp ∧
      resp.cached = false ∧ resp.resources = ⟨emptyProviderShape, none⟩ ∧
      resp.summary = [] ∧
      (get_resource_inventory c5fetch c7db 1000 5 true c5caller).1.cache
        = c7db.cache ++ [⟨5, pyLower "oracle", ⟨emptyProviderShape, none⟩, [], 1000⟩]) :=
  ⟨(c7_provider_fallback_and_unknown_empty c5fetch).1 c7db 1000 4 false c5caller
      c7tenantNone rfl rfl,
   (c7_provider_fallback_and_unknown_empty c5fetch).2 c7db 1000 5 true c5caller
      c7tenantOdd "oracle" rfl rfl (by decide) (by decide) (by decide) (by decide)
      (by intro b hb; cases hb)⟩

/-- **C10**: for an existing client, the inventory endpoint's observable
output — its response and the cache table it leaves behind — is the same
whichever authenticated caller invokes it and whatever the identity tables
(users, roles, permission rows, client assignments) contain: the handler
performs no permission check and no client-visibility check. -/
theorem c10_inventory_caller_independent (fetch : String → Nat → Inventory) (db : DB)
    (now : Int) (cid : Nat) (force_refresh : Bool) (client : Tenant)
    (users1 users2 : List User) (roles1 roles2 : List Role)
    (perms1 perms2 : List String)
    (ucp1 ucp2 : List UserClientPermission) (u1 u2 : SessionUser)
    (hc : db.tenants.find? (fun t => t.id == cid) = some client) :
    (get_resource_inventory fetch
        { db with
          users := users1, roles := roles1, permissions := perms1,
          userClientPerms := ucp1 } now cid force_refresh u1).2
      = (get_resource_inventory fetch
        { db with
          users := users2, roles := roles2, permissions := perms2,
          userClientPerms := ucp2 } now cid force_refresh u2).2 ∧
    (get_resource_inventory fetch
        { db with
          users := users1, roles := roles1, permissions := perms1,
          userClientPerms := ucp1 } now cid force_refresh u1).1.cache
      = (get_resource_inventory fetch
        { db with
          users := users2, roles := roles2, permissions := perms2,
          userClientPerms := ucp2 } now cid force_refresh u2).1.cache := by
  cases force_refresh with
  | true => constructor <;> simp [get_resource_inventory, hc]
  | false =>
    cases hle : latestCacheEntry db.cache cid (resolveProvider client.provider) with
    | none => constructor <;> simp [get_resource_inventory, hc, hle]
    | some e =>
      cases hfr : cacheIsFresh now e.fetched_at with
      | true => constructor <;> simp [get_resource_inventory, hc, hle, hfr]
      | false => constructor <;> simp [get_resource_inventory, hc, hle, hfr]

/-- A second caller for the C10 witness, with none of the first one's
privileges. -/
def c10viewer : SessionUser := { user_id := 99, username := "guest", role := "member" }

/-- Witness for C10: a privileged and an unprivileged caller, over identity
tables that give the first caller everything and the second nothing. -/
theorem c10_inventory_caller_independent_witness :
    (get_resource_inventory c5fetch
        { c5db with
          users := [⟨1, 1, "root", some 1, none, []⟩],
          roles := [⟨1, "superadmin", ["clients.view"]⟩],
          permissions := ["clients.view"],
          userClientPerms := [⟨1, 3, "approver"⟩] } 1000 3 false c5caller).2
      = (get_resource_inventory c5fetch
        { c5db with
          users := [], roles := [], permissions := [],
          userClientPerms := [] } 1000 3 false c10viewer).2 ∧
    (get_resource_inventory c5fetch
        { c5db with
          users := [⟨1, 1, "root", some 1, none, []⟩],
          roles := [⟨1, "superadmin", ["clients.view"]⟩],
          permissions := ["clients.view"],
          userClientPerms := [⟨1, 3, "approver"⟩] } 1000 3 false c5caller).1.cache
      = (get_resource_inventory c5fetch
        { c5db with
          users := [], roles := [], permissions := [],
          userClientPerms := [] } 1000 3 false c10viewer).1.cache :=
  c10_inventory_caller_independent c5fetch c5db 1000 3 false c5tenant
    [⟨1, 1, "root", some 1, none, []⟩] [] [⟨1, "superadmin", ["clients.view"]⟩] []
    ["clients.view"] [] [⟨1, 3, "approver"⟩] [] c5caller c10viewer rfl

/-- Credentials with both AWS keys present, for the C8 scenarios. -/
def c8creds : AwsCredentials :=
  { clientId := some "AKIA", clientSecret := some "SECRET",
    access_key := none, secret_key := none, region := some "us-east-1" }

/-- Credentials with no AWS keys at all, for the C8 scenarios. -/
def c8noCreds : AwsCredentials :=
  { clientId := none, clientSecret := none,
    access_key := none, secret_key := none, region := none }

/-- An environment in which every sub-fetch succeeds. -/
def c8okEnv : AwsEnv :=
  { top_error := none,
    ec2 := .ok ["i-1"], asg := .ok [], lambdas := .ok [], ecs := .ok [], eks := .ok [],
    rds := .ok [], dynamodb := .ok [], elasticache := .ok [], s3 := .ok [], ebs := .ok [],
    vpc := .ok [], sg := .ok [], elb := .ok [], cloudfront := .ok [], route53 := .ok [],
    api_gateway := .ok [], sns := .ok [], sqs := .ok [], iam := .ok [], kms := .ok [] }

/-- An environment whose session setup raises (caught by the outer
`try/except`). -/
def c8boomEnv : AwsEnv := { c8okEnv with top_error := some "boom" }

/-- Counterexample to C8 as stated: an exception during fetching is *not*
converted into the same shape as the missing-credentials return — the
exception return has no `messaging` category (nor `api`, nor
`networking.route53`), while the full empty shape does. -/
theorem c8_exception_shape_counterexample :
    fetch_aws_resources c8creds c8boomEnv
      ≠ ⟨awsFullEmptyShape, some "boom"⟩ ∧
    (fetch_aws_resources c8creds c8boomEnv).error = some "boom" ∧
    ((fetch_aws_resources c8creds c8boomEnv).categories.map Prod.fst).contains "messaging"
      = false ∧
    (awsFullEmptyShape.map Prod.fst).contains "messaging" = true := by
  refine ⟨by decide, rfl, rfl, rfl⟩

/-- **C8** (amended): `fetch_aws_resources` is total; with a missing access
or secret key it returns the full empty inventory shape plus the error
string, and an exception escaping the per-service blocks is caught and
returned as an all-empty-plus-error inventory — but one that omits the
`messaging` and `api` categories and the `route53` list, so it is a
strictly smaller shape than the missing-credentials return. -/
theorem c8_fetcher_error_shapes (creds : AwsCredentials) (env : AwsEnv) :
    ((pyTruthy (pyOr creds.clientId creds.access_key) &&
        pyTruthy (pyOr creds.clientSecret creds.secret_key)) = false →
      fetch_aws_resources creds env
        = ⟨awsFullEmptyShape, some "Missing AWS credentials"⟩) ∧
    (∀ e, (pyTruthy (pyOr creds.clientId creds.access_key) &&
        pyTruthy (pyOr creds.clientSecret creds.secret_key)) = true →
      env.top_error = some e →
      fetch_aws_resources creds env = awsExceptionResult e ∧
      (awsExceptionResult e).categories.all
        (fun c => c.2.all (fun t => t.2.isEmpty)) = true ∧
      (awsExceptionResult e).error = some e) := by
  constructor
  · intro h
    simp [fetch_aws_resources, h]
  · intro e h1 h2
    refine ⟨?_, rfl, rfl⟩
    simp [fetch_aws_resources, h1, h2]

/-- Witness for C8 (amended): the missing-credentials return and the
exception return, at concrete inputs. -/
theorem c8_fetcher_error_shapes_witness :
    fetch_aws_resources c8noCreds c8okEnv
      = ⟨awsFullEmptyShape, some "Missing AWS credentials"⟩ ∧
    fetch_aws_resources c8creds c8boomEnv = awsExceptionResult "boom" :=
  ⟨(c8_fetcher_error_shapes c8noCreds c8okEnv).1 (by decide),
   ((c8_fetcher_error_shapes c8creds c8boomEnv).2 "boom" (by decide) rfl).1⟩

end Pca
